import Mathlib

/-!
Shallow embedding of the `parse-spammers-from-pdf-phone-bill` program.

Modelling conventions:
* A pandas dataframe returned by `tabula.read_pdf(...)[0]` is a `Grid`: a list
  of rows of cells plus a list of column labels.  A cell is `Option String`;
  `none` models a pandas `NaN`.
* The external table-extraction collaborator (`tabula.read_pdf` over one fixed
  document) is a `Document`: three pure functions giving the grid returned for
  a full-page read with `guess=False`, a full-page read with `guess=True`, and
  a region-restricted read.  One document run always reads the same file, so a
  repeated read of the same page/region yields the same grid.
* Python float arithmetic is modelled by exact rationals (`ℚ`).
* `pandas.Series.str.contains(pat, na=False)` and `re.match` are modelled for
  literal (regex-metacharacter-free) patterns, which is how the program uses
  them: `contains` is substring occurrence and `match` is an anchored prefix
  test; a `NaN` cell is falsy under `.any()`.
* Python exceptions are modelled by `Except`: `RuntimeError` messages of the
  scanner and integrator as strings, extractor errors as the inductive
  `ExtractErr` whose constructors carry the data interpolated into the
  corresponding Python messages.
-/

/-- Decidable equality of results, used to evaluate the embedding on the
concrete documents below. -/
instance {ε α : Type} [DecidableEq ε] [DecidableEq α] : DecidableEq (Except ε α) :=
  fun a b =>
    match a, b with
    | .ok x, .ok y =>
      match decEq x y with
      | isTrue h => isTrue (by rw [h])
      | isFalse h => isFalse (by intro hc; cases hc; exact h rfl)
    | .error x, .error y =>
      match decEq x y with
      | isTrue h => isTrue (by rw [h])
      | isFalse h => isFalse (by intro hc; cases hc; exact h rfl)
    | .ok _, .error _ => isFalse (by intro hc; cases hc)
    | .error _, .ok _ => isFalse (by intro hc; cases hc)

/-- A dataframe cell; `none` models a pandas `NaN`. -/
abbrev Cell := Option String

/-- One page's dataframe (`read_pdf(...)[0]`): rows of cells plus column labels. -/
structure Grid where
  rows : List (List Cell)
  columns : List String
deriving DecidableEq, Repr

/-- Column 0 of a grid (`df[0].iloc[:, 0]`). -/
def Grid.col0 (g : Grid) : List Cell := g.rows.map (fun r => r.headD none)

/-- Check whether the character list `p` occurs at the start of the second list. -/
def listStartsWith : List Char → List Char → Bool
  | [], _ => true
  | _ :: _, [] => false
  | a :: as, b :: bs => a == b && listStartsWith as bs

/-- Check whether `p` occurs as a contiguous sublist (Python `pat in s`). -/
def listHasSub (p : List Char) : List Char → Bool
  | [] => p.isEmpty
  | c :: rest => listStartsWith p (c :: rest) || listHasSub p rest

/-- Python `pat in s` for strings, hence pandas `str.contains(pat, na=False)`
for a literal pattern. -/
def strContainsLit (s pat : String) : Bool := listHasSub pat.data s.data

/-- Python `re.match(pat, s)` truthiness for a literal pattern: anchored at the
start of `s`. -/
def strMatchStart (pat s : String) : Bool := listStartsWith pat.data s.data

/-- Pandas `series.str.contains(pat, na=False)` on one cell. -/
def cellContains (pat : String) : Cell → Bool
  | none => false
  | some s => strContainsLit s pat

/-- Pandas `series.str.match(pat)` on one cell; a `NaN` result is falsy under
`.any()`. -/
def cellMatches (pat : String) : Cell → Bool
  | none => false
  | some s => strMatchStart pat s

/-- Normalization of one Python slice bound against a list of length `len`:
a negative bound is interpreted relative to the end of the list. -/
def pyBound (len : Nat) (i : Int) : Nat :=
  if i < 0 then ((len : Int) + i).toNat else min i.toNat len

/-- Python list/positional-dataframe slice `l[a:b]`, including the
negative-bound normalization. -/
def pySlice {α : Type} (l : List α) (a b : Int) : List α :=
  (l.drop (pyBound l.length a)).take (pyBound l.length b - pyBound l.length a)

/-- Region rectangle passed to the collaborator (`area=` argument of
`read_pdf`): index 0 is top, 1 left, 2 bottom, 3 right. -/
structure Area where
  top : ℚ
  left : ℚ
  bottom : ℚ
  right : ℚ
deriving DecidableEq, Repr

/-- The external table-extraction collaborator over one fixed document. -/
structure Document where
  pageNoGuess : Nat → Grid
  pageGuess : Nat → Grid
  pageArea : Nat → Area → Grid

/-! ### DocumentScanner (src/helpers/scanning.py) -/

/-- Configuration of `DocumentScanner` (env-var arguments). -/
structure ScannerConfig where
  searchNumber : String
  searchKey : String
  sectionHeaderRows : Nat
  maxPages : Nat
  rowsBetweenSections : Nat
deriving DecidableEq, Repr

/-- `_find_key_indices_in_df` and the analogous `np.where(...str.contains...)`
computations of the extractor: row indices of column 0 whose cell contains
`pat`. -/
def findIndicesContaining (pat : String) (g : Grid) : List Nat :=
  (g.col0.enum.filter (fun p => cellContains pat p.2)).map Prod.fst

/-- `DocumentScanner._find_key_indices_in_df`. -/
def findKeyIndicesInDf (searchKey : String) (g : Grid) : List Nat :=
  findIndicesContaining searchKey g

/-- `DocumentScanner._slice_header_around_key_index`:
`df[0][key_index - section_header_rows : key_index + 1]`, a Python slice whose
start bound goes negative when `key_index < section_header_rows`. -/
def sliceHeaderAroundKeyIndex (sectionHeaderRows : Nat) (g : Grid) (keyIndex : Nat) :
    List Cell :=
  pySlice g.col0 ((keyIndex : Int) - sectionHeaderRows) ((keyIndex : Int) + 1)

/-- `DocumentScanner._is_search_number_in_slice`. -/
def isSearchNumberInSlice (searchNumber : String) (sl : List Cell) : Bool :=
  sl.any (cellMatches searchNumber)

/-- Result of a successful `find_start_page` pass. -/
structure StartOutcome where
  startPage : Nat
  startPageKeyIndex : Nat
  validPages : List Nat
deriving DecidableEq, Repr

/-- On one page, the first key index whose header slice matches the search
number (the inner `for k in key_indices` loop of `find_start_page`). -/
def startMatchIndex (cfg : ScannerConfig) (g : Grid) : Option Nat :=
  (findKeyIndicesInDf cfg.searchKey g).find?
    (fun k => isSearchNumberInSlice cfg.searchNumber
      (sliceHeaderAroundKeyIndex cfg.sectionHeaderRows g k))

/-- Page loop of `find_start_page` over the remaining pages to scan. -/
def findStartPageLoop (doc : Document) (cfg : ScannerConfig) :
    List Nat → Except String StartOutcome
  | [] => .error "Unable to identify the start page"
  | p :: rest =>
    match startMatchIndex cfg (doc.pageNoGuess p) with
    | some k => .ok ⟨p, k, [p]⟩
    | none => findStartPageLoop doc cfg rest

/-- `DocumentScanner.find_start_page`: Python `range(1, max_pages)`. -/
def findStartPage (doc : Document) (cfg : ScannerConfig) : Except String StartOutcome :=
  findStartPageLoop doc cfg (List.range' 1 (cfg.maxPages - 1))

/-- Whether some key index of the page has a header slice matching the search
number (the per-page success condition of `find_start_page`). -/
def pageHasStartMatch (doc : Document) (cfg : ScannerConfig) (p : Nat) : Bool :=
  (startMatchIndex cfg (doc.pageNoGuess p)).isSome

/-- Result of a successful `find_end_page` pass. -/
structure EndOutcome where
  endPage : Nat
  endPageKeyIndex : Int
  validPages : List Nat
deriving DecidableEq, Repr

/-- `int(11/0.18)` of the no-key-indices branch: Python float division then
truncation toward zero, which on this positive value is the floor. -/
def fallbackEndKeyIndex : Int := ((11 : ℚ) / (18 / 100)).floor

/-- Inner loop of `find_end_page` on the start page: find the first key index
whose header slice matches and which has a successor index, and return that
successor (`key_indices[i+1]`). -/
def firstMatchWithNext (pred : Nat → Bool) : List Nat → Option Nat
  | k1 :: k2 :: rest => if pred k1 then some k2 else firstMatchWithNext pred (k2 :: rest)
  | _ => none

/-- Page loop of `find_end_page` over the remaining pages, threading
`valid_pages`. -/
def findEndPageLoop (doc : Document) (cfg : ScannerConfig) (startPage : Nat) :
    List Nat → List Nat → Except String EndOutcome
  | [], _ => .error "Unable to identify the end page"
  | p :: rest, vp =>
    let vp2 := if p ∈ vp then vp else vp ++ [p]
    let g := doc.pageNoGuess p
    let ks := findKeyIndicesInDf cfg.searchKey g
    if ks.isEmpty then
      .ok ⟨p - 1, fallbackEndKeyIndex, vp2.erase p⟩
    else if p = startPage then
      match firstMatchWithNext
          (fun k => isSearchNumberInSlice cfg.searchNumber
            (sliceHeaderAroundKeyIndex cfg.sectionHeaderRows g k)) ks with
      | some k2 => .ok ⟨p, (k2 : Int) - cfg.rowsBetweenSections, vp2⟩
      | none => findEndPageLoop doc cfg startPage rest vp2
    else
      match ks.find? (fun k => !isSearchNumberInSlice cfg.searchNumber
          (sliceHeaderAroundKeyIndex cfg.sectionHeaderRows g k)) with
      | some k => .ok ⟨p, (k : Int) - cfg.rowsBetweenSections, vp2⟩
      | none => findEndPageLoop doc cfg startPage rest vp2

/-- `DocumentScanner.find_end_page`: Python `range(start_page, max_pages)`,
starting from the `valid_pages` produced by `find_start_page`. -/
def findEndPage (doc : Document) (cfg : ScannerConfig) (s : StartOutcome) :
    Except String EndOutcome :=
  findEndPageLoop doc cfg s.startPage
    (List.range' s.startPage (cfg.maxPages - s.startPage)) s.validPages

/-- Frozen scan state consumed by the extractor after both passes succeed. -/
structure ScanResult where
  startPage : Nat
  startPageKeyIndex : Nat
  endPage : Nat
  endPageKeyIndex : Int
  validPages : List Nat
deriving DecidableEq, Repr

/-- The two boundary passes run in sequence, as `main.py` does. -/
def runScan (doc : Document) (cfg : ScannerConfig) : Except String ScanResult :=
  match findStartPage doc cfg with
  | .error e => .error e
  | .ok s =>
    match findEndPage doc cfg s with
    | .error e => .error e
    | .ok e =>
      .ok ⟨s.startPage, s.startPageKeyIndex, e.endPage, e.endPageKeyIndex, e.validPages⟩

/-! ### CallDataExtractor (src/helpers/extracting.py) -/

/-- `CallDataExtractor.__calculate_area_float_list`: top is driven by the
vertical slider over an 8.5x11-inch letter page at 72 points per inch. -/
def calculateAreaFloatList (verticalSlider : ℚ) : Area :=
  ⟨verticalSlider * 11 * 72, 0, 11 * 72, (8.5 : ℚ) * 72⟩

/-- `all(item in list(df[0].columns) for item in ["Date", "Time", "Number"])`. -/
def hasAllCols (g : Grid) : Bool :=
  ["Date", "Time", "Number"].all (fun c => g.columns.contains c)

/-- `any(item in list(df[0].columns) for item in ["Date", "Time", "Number"])`. -/
def hasAnyCols (g : Grid) : Bool :=
  ["Date", "Time", "Number"].any (fun c => g.columns.contains c)

/-- Count of non-NaN cells in a row. -/
def countNonNA (r : List Cell) : Nat := (r.filter Option.isSome).length

/-- Pandas `df.dropna(thresh=t)`: keep exactly the rows with at least `t`
non-NaN cells. -/
def dropnaThresh (t : Nat) (g : Grid) : Grid :=
  ⟨g.rows.filter (fun r => t ≤ countNonNA r), g.columns⟩

/-- Scanner fields interpolated into the extractor's fatal error messages. -/
structure ScanDiag where
  startPage : Nat
  endPage : Nat
  startPageKeyIndex : Nat
  endPageKeyIndex : Int
  validPages : List Nat
deriving DecidableEq, Repr

/-- Diagnostic view of a scan result. -/
def ScanResult.diag (sc : ScanResult) : ScanDiag :=
  ⟨sc.startPage, sc.endPage, sc.startPageKeyIndex, sc.endPageKeyIndex, sc.validPages⟩

/-- Errors raised inside `CallDataExtractor`.  `valueError` is the
`ValueError("Unable to extract call data from page ...")` of the two basic
strategies; `lastPageFailure` and `maxIterations` are the `RuntimeError`s whose
messages interpolate the listed diagnostic data; `numberKeyError` is the
`KeyError` of `df[0]["Number"]` when that column is absent; `noDataframes` is
the `RuntimeError` for an empty accumulator. -/
inductive ExtractErr where
  | valueError (page : Nat)
  | lastPageFailure (page : Nat) (diag : ScanDiag)
  | numberKeyError (page : Nat)
  | maxIterations (page : Nat) (diag : ScanDiag) (totalRows : Nat)
      (possibleIndices newIndices : List Nat)
  | noDataframes
deriving DecidableEq, Repr

/-- `CallDataExtractor._simple_extract`. -/
def simpleExtract (doc : Document) (page : Nat) : Except ExtractErr Grid :=
  let g := doc.pageGuess page
  if hasAllCols g then .ok g else .error (.valueError page)

/-- `CallDataExtractor._last_page_extract`: simple extract first, then a
region read whose top is the fixed 3-inch header offset and whose bottom is
approximated from `end_page_key_index`. -/
def lastPageExtract (doc : Document) (sc : ScanResult) (page : Nat) :
    Except ExtractErr Grid :=
  match simpleExtract doc page with
  | .ok g => .ok g
  | .error _ =>
    let area0 := calculateAreaFloatList 0
    let approxBottom : ℚ := (3 + (sc.endPageKeyIndex : ℚ) * (18 / 100)) * 72
    let area := { area0 with top := 3 * 72, bottom := min approxBottom 792 }
    let g := doc.pageArea page area
    if hasAllCols g then .ok g else .error (.valueError page)

/-- `df[0]["Number"].isnull().any()`: `none` models the `KeyError` when the
`Number` column is missing; a row shorter than the column index reads as NaN. -/
def numberColHasNull (g : Grid) : Option Bool :=
  match g.columns.indexOf? "Number" with
  | none => none
  | some i => some (g.rows.any (fun r => ((r.get? i).getD none).isNone))

/-- Total row count of the initial full-page read of `_complex_extract`. -/
def complexTotalRows (doc : Document) (page : Nat) : Nat :=
  (doc.pageNoGuess page).rows.length

/-- `possible_indices` of `_complex_extract`: rows of the initial full-page
read whose column 0 contains the literal `'Date Time Number'`, restricted to
indices at least `start_page_key_index`. -/
def complexPossibleIndices (doc : Document) (sc : ScanResult) (page : Nat) : List Nat :=
  (findIndicesContaining "Date Time Number" (doc.pageNoGuess page)).filter
    (fun i => sc.startPageKeyIndex ≤ i)

/-- Correction loop of `_complex_extract`, with the remaining iteration budget
as fuel (`500 - curr_iter`) and the `new_indices` of the previous iteration
threaded for the final error message (Python leaves it unbound before the
first iteration; the initial `[]` is never observable because the initial fuel
is positive).  The second component counts the loop iterations performed. -/
def complexLoopAux (doc : Document) (sc : ScanResult) (page totalRows : Nat)
    (possibleIndices : List Nat) :
    Nat → ℚ → Grid → List Nat → Except ExtractErr Grid × Nat
  | 0, _, _, lastIndices =>
    (.error (.maxIterations page sc.diag totalRows possibleIndices lastIndices), 0)
  | fuel + 1, slider, df, _ =>
    let newIndices := findIndicesContaining "Date" df
    let slider2 := if newIndices.length < possibleIndices.length
      then slider - 1/100 else slider + 1/100
    let area := calculateAreaFloatList slider2
    let df2 := doc.pageArea page area
    if hasAnyCols df2 then
      match numberColHasNull df2 with
      | none => (.error (.numberKeyError page), 1)
      | some hasNull =>
        if hasNull && (sc.startPage == sc.endPage) then
          let rowDiff : ℚ := (sc.endPageKeyIndex : ℚ) - (sc.startPageKeyIndex : ℚ)
          let bottomDifferential : ℚ := rowDiff * (18 / 100) * 72 + (1 / 2) * 72
          let bottom : ℚ := min (area.top + bottomDifferential) 792
          let area2 := { area with bottom := bottom }
          let df3 := doc.pageArea page area2
          if hasAllCols df3 then (.ok df3, 1)
          else
            let r := complexLoopAux doc sc page totalRows possibleIndices fuel slider2 df3
              newIndices
            (r.1, r.2 + 1)
        else (.ok (dropnaThresh 3 df2), 1)
    else
      let r := complexLoopAux doc sc page totalRows possibleIndices fuel slider2 df2 newIndices
      (r.1, r.2 + 1)

/-- `CallDataExtractor._complex_extract` instrumented with the number of
correction-loop iterations performed. -/
def complexExtractCounted (doc : Document) (sc : ScanResult) (page : Nat) :
    Except ExtractErr Grid × Nat :=
  let totalRows := complexTotalRows doc page
  let possibleIndices := complexPossibleIndices doc sc page
  let slider : ℚ := (sc.startPageKeyIndex : ℚ) / (totalRows : ℚ)
  let df := doc.pageArea page (calculateAreaFloatList slider)
  if hasAllCols df then (.ok df, 0)
  else complexLoopAux doc sc page totalRows possibleIndices 500 slider df []

/-- `CallDataExtractor._complex_extract`. -/
def complexExtract (doc : Document) (sc : ScanResult) (page : Nat) :
    Except ExtractErr Grid :=
  (complexExtractCounted doc sc page).1

/-- Per-page branch of `CallDataExtractor.extract`: start pages go through the
simple strategy exactly when `start_page_key_index == 3`, end pages through the
last-page strategy with its `ValueError` converted to a fatal `RuntimeError`,
and all other pages through the simple strategy. -/
def extractPage (doc : Document) (sc : ScanResult) (page : Nat) :
    Except ExtractErr Grid :=
  if page = sc.startPage then
    if sc.startPageKeyIndex = 3 then simpleExtract doc page
    else complexExtract doc sc page
  else if page = sc.endPage then
    match lastPageExtract doc sc page with
    | .ok g => .ok g
    | .error (.valueError _) => .error (.lastPageFailure page sc.diag)
    | .error e => .error e
  else simpleExtract doc page

/-- `pd.concat(..., ignore_index=True)`: rows concatenated in order; column
labels united keeping first-seen order.  Cells a source frame lacks for a
united column are NaN in pandas and contribute nothing to a row's non-NaN
count, so rows are concatenated without padding. -/
def concatGrids (gs : List Grid) : Grid :=
  ⟨(gs.map Grid.rows).flatten,
   gs.foldl (fun acc g => acc ++ g.columns.filter (fun c => !acc.contains c)) []⟩

/-- `CallDataExtractor.extract`: accumulate one sub-table per valid page in
order, concatenate, then `dropna(thresh=6)`. -/
def extract (doc : Document) (sc : ScanResult) : Except ExtractErr Grid :=
  match sc.validPages.mapM (extractPage doc sc) with
  | .error e => .error e
  | .ok dfs =>
    if dfs.isEmpty then .error .noDataframes
    else .ok (dropnaThresh 6 (concatGrids dfs))

/-! ### ExternalIntegrator (src/helpers/integrating.py) -/

/-- Response of one carrier-lookup request: HTTP status and the `carrier`
field of the JSON body. -/
structure ApiResponse where
  status : Nat
  carrier : Option String
deriving DecidableEq, Repr

/-- `ExternalIntegrator.__process_response`: non-200 is a retryable failure;
a null or empty carrier on a 200 is the `"Null"` sentinel, not a failure. -/
def processResponse (r : ApiResponse) : Option String :=
  if r.status ≠ 200 then none
  else match r.carrier with
    | none => some "Null"
    | some c => if c.length = 0 then some "Null" else some c

/-- `max_fails_threshold` of `ExternalIntegrator.__init__`. -/
def maxFailsThreshold : Nat := 3

/-- `max_retry_threshold` of `ExternalIntegrator.__init__`. -/
def maxRetryThreshold : Nat := 5

/-- `retry_backoff_factor` of `ExternalIntegrator.__init__`. -/
def retryBackoffFactor : Nat := 2

/-- `rate_limit_wait_time_seconds` of `ExternalIntegrator.__init__`. -/
def rateLimitWaitTimeSeconds : Nat := 1

/-- Observable side effects of the integrator: one lookup request (with its
per-number attempt index) or one `time.sleep` (seconds). -/
inductive ApiEvent where
  | request (num : String) (attempt : Nat)
  | sleep (seconds : Nat)
deriving DecidableEq, Repr

/-- Number normalization done in `ExternalIntegrator.__init__`: strip `.`
and `-`. -/
def normalizeNums (nums : List String) : List String :=
  (nums.map (fun n => n.replace "." "")).map (fun n => n.replace "-" "")

/-- Retry loop of `_find_carrier_for_number`: `attempts` is the current value
of the Python counter, the second argument the remaining loop budget
(`max_retry_threshold - attempts`).  Returns the carrier found (`none` when
all retries are exhausted) and the trace of requests and backoff sleeps
(`1 * 2 ** attempts` seconds after the increment, as in the source). -/
def retryLoop (api : String → Nat → ApiResponse) (num : String) :
    Nat → Nat → Option String × List ApiEvent
  | _, 0 => (none, [])
  | attempts, budget + 1 =>
    match processResponse (api num attempts) with
    | some c => (some c, [.request num attempts])
    | none =>
      let r := retryLoop api num (attempts + 1) budget
      (r.1, .request num attempts ::
        .sleep (rateLimitWaitTimeSeconds * retryBackoffFactor ^ (attempts + 1)) :: r.2)

/-- Mutable state of `ExternalIntegrator` across numbers. -/
structure IntegratorState where
  totalFails : Nat
  accumulator : List String
deriving DecidableEq, Repr

/-- Message of the circuit-breaker `RuntimeError`. -/
def circuitBreakerMessage : String := "Too many external API failures, exiting"

/-- `ExternalIntegrator._find_carrier_for_number`: raises the circuit breaker
before any lookup once `total_fails` reached the threshold; otherwise retries
up to the budget, recording `"Null"` and bumping `total_fails` on exhaustion. -/
def findCarrierForNumber (api : String → Nat → ApiResponse) (st : IntegratorState)
    (num : String) : Except String (IntegratorState × List ApiEvent) :=
  if maxFailsThreshold ≤ st.totalFails then .error circuitBreakerMessage
  else
    match retryLoop api num 0 maxRetryThreshold with
    | (some c, evs) => .ok ({ st with accumulator := st.accumulator ++ [c] }, evs)
    | (none, evs) =>
      .ok (⟨st.totalFails + 1, st.accumulator ++ ["Null"]⟩, evs)

/-- `ExternalIntegrator.find_carriers`: process numbers in order with a
rate-limit sleep after each processed number; a raised error aborts the pass. -/
def findCarriers (api : String → Nat → ApiResponse) :
    IntegratorState → List String → Except String IntegratorState × List ApiEvent
  | st, [] => (.ok st, [])
  | st, num :: rest =>
    match findCarrierForNumber api st num with
    | .error e => (.error e, [])
    | .ok (st2, evs) =>
      let r := findCarriers api st2 rest
      (r.1, evs ++ .sleep rateLimitWaitTimeSeconds :: r.2)

/-- Trace of `j` consecutive failed attempts for `num` starting at attempt
counter `start`: each failed request is followed by the backoff sleep of
`baseDelay * backoffFactor ^ attempts` seconds with `attempts` already
incremented. -/
def failTraceFrom (num : String) (start : Nat) : Nat → List ApiEvent
  | 0 => []
  | j + 1 => .request num start ::
      .sleep (rateLimitWaitTimeSeconds * retryBackoffFactor ^ (start + 1)) ::
      failTraceFrom num (start + 1) j

/-! ### Definitions modelled from the spec's words, for refinement comparison -/

/-- Modelled from the spec: "start pages where the target section is already
first on the page" — the first key-marker index found on the start page is the
recorded start key index. -/
def targetSectionIsFirstOnPage (doc : Document) (searchKey : String) (sc : ScanResult) :
    Bool :=
  (findKeyIndicesInDf searchKey (doc.pageNoGuess sc.startPage)).head? ==
    some sc.startPageKeyIndex

/-- Modelled from the spec: the correction loop as §4.3 step 4 words it, with
each iteration re-counting the KEY-MARKER row indices (`'Date Time Number'`)
of the most recent grid rather than the `'Date'`-containing rows the source
counts.  Identical to `complexLoopAux` otherwise. -/
def complexLoopAuxSpecWords (doc : Document) (sc : ScanResult) (page totalRows : Nat)
    (possibleIndices : List Nat) :
    Nat → ℚ → Grid → List Nat → Except ExtractErr Grid × Nat
  | 0, _, _, lastIndices =>
    (.error (.maxIterations page sc.diag totalRows possibleIndices lastIndices), 0)
  | fuel + 1, slider, df, _ =>
    let newIndices := findIndicesContaining "Date Time Number" df
    let slider2 := if newIndices.length < possibleIndices.length
      then slider - 1/100 else slider + 1/100
    let area := calculateAreaFloatList slider2
    let df2 := doc.pageArea page area
    if hasAnyCols df2 then
      match numberColHasNull df2 with
      | none => (.error (.numberKeyError page), 1)
      | some hasNull =>
        if hasNull && (sc.startPage == sc.endPage) then
          let rowDiff : ℚ := (sc.endPageKeyIndex : ℚ) - (sc.startPageKeyIndex : ℚ)
          let bottomDifferential : ℚ := rowDiff * (18 / 100) * 72 + (1 / 2) * 72
          let bottom : ℚ := min (area.top + bottomDifferential) 792
          let area2 := { area with bottom := bottom }
          let df3 := doc.pageArea page area2
          if hasAllCols df3 then (.ok df3, 1)
          else
            let r := complexLoopAuxSpecWords doc sc page totalRows possibleIndices fuel
              slider2 df3 newIndices
            (r.1, r.2 + 1)
        else (.ok (dropnaThresh 3 df2), 1)
    else
      let r := complexLoopAuxSpecWords doc sc page totalRows possibleIndices fuel slider2
        df2 newIndices
      (r.1, r.2 + 1)

/-- Continuation of one correction-loop iteration after the slider update: the
region rectangle is recomputed from the updated slider and the page re-read
before the column checks and the recursive continuation. -/
def complexLoopBody (doc : Document) (sc : ScanResult) (page totalRows : Nat)
    (possibleIndices : List Nat) (fuel : Nat) (slider2 : ℚ) (newIndices : List Nat) :
    Except ExtractErr Grid × Nat :=
  let area := calculateAreaFloatList slider2
  let df2 := doc.pageArea page area
  if hasAnyCols df2 then
    match numberColHasNull df2 with
    | none => (.error (.numberKeyError page), 1)
    | some hasNull =>
      if hasNull && (sc.startPage == sc.endPage) then
        let rowDiff : ℚ := (sc.endPageKeyIndex : ℚ) - (sc.startPageKeyIndex : ℚ)
        let bottomDifferential : ℚ := rowDiff * (18 / 100) * 72 + (1 / 2) * 72
        let bottom : ℚ := min (area.top + bottomDifferential) 792
        let area2 := { area with bottom := bottom }
        let df3 := doc.pageArea page area2
        if hasAllCols df3 then (.ok df3, 1)
        else
          let r := complexLoopAux doc sc page totalRows possibleIndices fuel slider2 df3
            newIndices
          (r.1, r.2 + 1)
      else (.ok (dropnaThresh 3 df2), 1)
  else
    let r := complexLoopAux doc sc page totalRows possibleIndices fuel slider2 df2 newIndices
    (r.1, r.2 + 1)

/-! ### Concrete documents and states used by counterexamples and witnesses -/

/-- A page on which the collaborator finds nothing usable. -/
def gEmpty : Grid := ⟨[], []⟩

/-- Configuration with search number `555`, key `KEY`, 3 header rows, 10 max
pages, 5 rows between sections. -/
def cexCfg1 : ScannerConfig := ⟨"555", "KEY", 3, 10, 5⟩

/-- Page 1 of `cexDoc1`: the target's section header at row 3. -/
def cexGrid1a : Grid :=
  ⟨[[some "x"], [some "x"], [some "555"], [some "KEY"], [some "y"]], []⟩

/-- Page 2 of `cexDoc1`: a foreign key marker at row 0, so its header slice is
the empty negative-start slice. -/
def cexGrid1b : Grid :=
  ⟨[[some "KEY"], [some "a"], [some "b"], [some "c"], [some "d"]], []⟩

/-- Document whose end scan fires on a key index smaller than
`rows_between_sections`. -/
def cexDoc1 : Document :=
  ⟨fun p => if p = 1 then cexGrid1a else if p = 2 then cexGrid1b else gEmpty,
   fun _ => gEmpty, fun _ _ => gEmpty⟩

/-- Configuration scanning at most up to page `max_pages = 3`. -/
def cexCfg4 : ScannerConfig := ⟨"555", "KEY", 3, 3, 5⟩

/-- Document whose only matching section is on page 3 = `max_pages`. -/
def cexDoc4 : Document :=
  ⟨fun p => if p = 3 then ⟨[[some "555"], [some "x"], [some "x"], [some "KEY"]], []⟩
    else gEmpty,
   fun _ => gEmpty, fun _ _ => gEmpty⟩

/-- Configuration with search number `777` and 3 header rows. -/
def cexCfg9 : ScannerConfig := ⟨"777", "KEY", 3, 3, 5⟩

/-- Document whose only section of the target has its key marker at row 1,
inside the first `section_header_rows` rows, with the target number directly
above it. -/
def cexDoc9 : Document :=
  ⟨fun p => if p = 1 then
      ⟨[[some "777"], [some "KEY"], [some "x"], [some "x"], [some "x"]], []⟩
    else gEmpty,
   fun _ => gEmpty, fun _ _ => gEmpty⟩

/-- Scan state whose start key index is 4 although the target section is the
first section of the start page. -/
def cexSc3 : ScanResult := ⟨1, 4, 2, 10, [1]⟩

/-- Full-page layout-guessed grid of the start page of `cexDoc3`. -/
def cexGrid3Simple : Grid := ⟨[[some "s"]], ["Date", "Time", "Number"]⟩

/-- Region-read grid of the start page of `cexDoc3`. -/
def cexGrid3Region : Grid := ⟨[[some "r1", some "r2", some "r3"]], ["Date", "Time", "Number"]⟩

/-- Document whose start page has its single (hence first) key marker at row 4. -/
def cexDoc3 : Document :=
  ⟨fun p => if p = 1 then
      ⟨[[some "a"], [some "b"], [some "c"], [some "d"], [some "KEY Date Time Number"]], []⟩
    else gEmpty,
   fun p => if p = 1 then cexGrid3Simple else gEmpty,
   fun _ _ => cexGrid3Region⟩

/-- Scan state with distinct start and end pages for the loop-step
counterexample. -/
def cexSc2 : ScanResult := ⟨1, 3, 2, 10, [1]⟩

/-- Most recent loop grid: one row containing `'Date'` but not the key-marker
literal `'Date Time Number'`. -/
def cexDf2 : Grid := ⟨[[some "Date: x"]], []⟩

/-- Region grid with the three required columns, returned only for the region
computed from slider `0.51`. -/
def cexGrid2Good : Grid := ⟨[[some "g1", some "g2", some "g3"]], ["Date", "Time", "Number"]⟩

/-- Document answering the slider-`0.51` region with a valid grid and
everything else with an unusable one. -/
def cexDoc2 : Document :=
  ⟨fun _ => gEmpty, fun _ => gEmpty,
   fun _ a => if a.top == (51 : ℚ) / 100 * 11 * 72 then cexGrid2Good else gEmpty⟩

/-- Scan state whose only valid page (2) is a middle page. -/
def witSc8 : ScanResult := ⟨1, 3, 3, 5, [2]⟩

/-- Middle-page grid with one complete row and one short row. -/
def witGrid8 : Grid :=
  ⟨[[some "a", some "b", some "c", some "d", some "e", some "f"],
    [some "a", none, none, none, none, none]],
   ["Date", "Time", "Number", "A", "B", "C"]⟩

/-- Document for the aggregation witness. -/
def witDoc8 : Document :=
  ⟨fun _ => gEmpty, fun p => if p = 2 then witGrid8 else gEmpty, fun _ _ => gEmpty⟩

/-- Stub lookup API that always fails. -/
def witApi7 : String → Nat → ApiResponse := fun _ _ => ⟨404, none⟩

/-- Document whose page 3 parses to nothing, for the C5 witness. -/
def witDoc5 : Document := ⟨fun _ => gEmpty, fun _ => gEmpty, fun _ _ => gEmpty⟩

/-- Configuration for the C5 witness. -/
def witCfg5 : ScannerConfig := ⟨"5", "K", 3, 9, 5⟩

/-- Scan state with `start_page_key_index = 3` for the C3 witness. -/
def witSc3 : ScanResult := ⟨1, 3, 2, 10, [1]⟩

/-- Aggregated grid produced by `extract` on the C8 witness document. -/
def witResult8 : Grid :=
  ⟨[[some "a", some "b", some "c", some "d", some "e", some "f"]],
   ["Date", "Time", "Number", "A", "B", "C"]⟩

/-! ### Helper lemmas -/

/-- The fixed fallback `int(11/0.18)` evaluates to 61. -/
lemma fallbackEndKeyIndex_eq : fallbackEndKeyIndex = 61 := by
  unfold fallbackEndKeyIndex
  rw [Rat.floor_def', ← Rat.floor_def]
  norm_num

/-- The fixed fallback also agrees with rounding `11/0.18`. -/
lemma fallbackEndKeyIndex_eq_round : fallbackEndKeyIndex = round ((11 : ℚ) / (18 / 100)) := by
  rw [fallbackEndKeyIndex_eq, round_eq]
  norm_num

/-- The start-page loop errors exactly when no examined page has a matching
key index. -/
lemma findStartPageLoop_error_iff (doc : Document) (cfg : ScannerConfig) :
    ∀ pages : List Nat,
      (findStartPageLoop doc cfg pages = .error "Unable to identify the start page" ↔
        ∀ p ∈ pages, pageHasStartMatch doc cfg p = false)
  | [] => by simp [findStartPageLoop]
  | p :: rest => by
    simp only [findStartPageLoop]
    cases h : startMatchIndex cfg (doc.pageNoGuess p) with
    | some k =>
      simp [pageHasStartMatch, h]
    | none =>
      simp [pageHasStartMatch, h, findStartPageLoop_error_iff doc cfg rest]

/-- A successful start-page loop run returns a page whose grid has the
recorded matching key index, together with the singleton valid-page list. -/
lemma findStartPageLoop_ok (doc : Document) (cfg : ScannerConfig) :
    ∀ (pages : List Nat) (s : StartOutcome), findStartPageLoop doc cfg pages = .ok s →
      startMatchIndex cfg (doc.pageNoGuess s.startPage) = some s.startPageKeyIndex
  | [], s => by simp [findStartPageLoop]
  | p :: rest, s => by
    simp only [findStartPageLoop]
    cases h : startMatchIndex cfg (doc.pageNoGuess p) with
    | some k =>
      intro he
      injection he with he
      subst he
      exact h
    | none => exact findStartPageLoop_ok doc cfg rest s

/-- A page with a matching key index has a nonempty key-index list. -/
lemma keyIndices_ne_nil_of_startMatch {cfg : ScannerConfig} {g : Grid} {k : Nat}
    (h : startMatchIndex cfg g = some k) : findKeyIndicesInDf cfg.searchKey g ≠ [] := by
  unfold startMatchIndex at h
  exact List.ne_nil_of_mem (List.mem_of_find?_eq_some h)

/-- Every end outcome produced by the end-page loop over pages at least
`startPage` of a document whose start page still has key indices lies at or
after the start page, and its key index is at least
`-rows_between_sections`. -/
lemma findEndPageLoop_ok_bounds (doc : Document) (cfg : ScannerConfig) (startPage : Nat)
    (hne : findKeyIndicesInDf cfg.searchKey (doc.pageNoGuess startPage) ≠ []) :
    ∀ (pages : List Nat) (vp : List Nat) (out : EndOutcome),
      (∀ p ∈ pages, startPage ≤ p) →
      findEndPageLoop doc cfg startPage pages vp = .ok out →
      startPage ≤ out.endPage ∧ -(cfg.rowsBetweenSections : Int) ≤ out.endPageKeyIndex
  | [], vp, out, hall => by simp [findEndPageLoop]
  | p :: rest, vp, out, hall => by
    have hp : startPage ≤ p := hall p (List.mem_cons_self p rest)
    simp only [findEndPageLoop]
    by_cases hks : (findKeyIndicesInDf cfg.searchKey (doc.pageNoGuess p)).isEmpty
    · rw [if_pos hks]
      intro he
      injection he with he
      subst he
      have hne' : p ≠ startPage := by
        intro hps
        subst hps
        exact hne (List.isEmpty_iff.mp hks)
      dsimp only
      refine ⟨by omega, ?_⟩
      rw [fallbackEndKeyIndex_eq]
      omega
    · rw [if_neg hks]
      by_cases hsp : p = startPage
      · rw [if_pos hsp]
        cases hm : firstMatchWithNext
            (fun k => isSearchNumberInSlice cfg.searchNumber
              (sliceHeaderAroundKeyIndex cfg.sectionHeaderRows (doc.pageNoGuess p) k))
            (findKeyIndicesInDf cfg.searchKey (doc.pageNoGuess p)) with
        | some k2 =>
          intro he
          injection he with he
          subst he
          dsimp only
          exact ⟨hp, by omega⟩
        | none =>
          exact findEndPageLoop_ok_bounds doc cfg startPage hne rest _ out
            (fun q hq => hall q (List.mem_cons_of_mem p hq))
      · rw [if_neg hsp]
        cases hm : (findKeyIndicesInDf cfg.searchKey (doc.pageNoGuess p)).find?
            (fun k => !isSearchNumberInSlice cfg.searchNumber
              (sliceHeaderAroundKeyIndex cfg.sectionHeaderRows (doc.pageNoGuess p) k)) with
        | some k =>
          intro he
          injection he with he
          subst he
          dsimp only
          exact ⟨hp, by omega⟩
        | none =>
          exact findEndPageLoop_ok_bounds doc cfg startPage hne rest _ out
            (fun q hq => hall q (List.mem_cons_of_mem p hq))

/-! ### Claim C1 -/

/-- C1 (counterexample): on a document where the end pass fires on a foreign
key marker at row 0 of page 2 with `rows_between_sections = 5`, both passes
return successfully yet `end_page_key_index = -5 < 0`, refuting the claimed
non-negativity. -/
theorem claim_C1_cex :
    runScan cexDoc1 cexCfg1 = .ok ⟨1, 3, 2, -5, [1, 2]⟩ ∧ (-5 : Int) < 0 := by
  exact ⟨by decide, by decide⟩

/-- C1 (amended): after both scans return successfully, the start key index is
a non-negative integer and `start_page ≤ end_page`; the end key index is an
integer bounded below by `-rows_between_sections` but can be negative. -/
theorem claim_C1 (doc : Document) (cfg : ScannerConfig) (sr : ScanResult)
    (h : runScan doc cfg = .ok sr) :
    0 ≤ (sr.startPageKeyIndex : Int) ∧ sr.startPage ≤ sr.endPage ∧
      -(cfg.rowsBetweenSections : Int) ≤ sr.endPageKeyIndex := by
  unfold runScan at h
  cases hs : findStartPage doc cfg with
  | error e => rw [hs] at h; cases h
  | ok s =>
    rw [hs] at h
    dsimp only at h
    cases he : findEndPage doc cfg s with
    | error e => rw [he] at h; cases h
    | ok e =>
      rw [he] at h
      dsimp only at h
      injection h with h
      subst h
      have hmatch := findStartPageLoop_ok doc cfg _ s hs
      have hne := keyIndices_ne_nil_of_startMatch hmatch
      have hbounds := findEndPageLoop_ok_bounds doc cfg s.startPage hne
        (List.range' s.startPage (cfg.maxPages - s.startPage)) s.validPages e
        (fun p hp => by
          obtain ⟨i, _, rfl⟩ := List.mem_range'.mp hp
          omega)
        he
      exact ⟨by omega, hbounds.1, hbounds.2⟩

/-- C1 (witness): the amended bounds instantiated on the concrete document of
the counterexample, whose scan succeeds with end key index `-5`. -/
theorem claim_C1_witness :
    0 ≤ ((⟨1, 3, 2, -5, [1, 2]⟩ : ScanResult).startPageKeyIndex : Int) ∧
      (⟨1, 3, 2, -5, [1, 2]⟩ : ScanResult).startPage ≤
        (⟨1, 3, 2, -5, [1, 2]⟩ : ScanResult).endPage ∧
      -(cexCfg1.rowsBetweenSections : Int) ≤
        (⟨1, 3, 2, -5, [1, 2]⟩ : ScanResult).endPageKeyIndex :=
  claim_C1 cexDoc1 cexCfg1 ⟨1, 3, 2, -5, [1, 2]⟩ (by decide)

/-! ### Claim C4 -/

/-- C4 (counterexample): `find_start_page` iterates Python
`range(1, max_pages)`, which excludes `max_pages` itself: on a document whose
only matching page is page `max_pages = 3`, the scan still raises the
start-not-found error, refuting the claimed inclusive range. -/
theorem claim_C4_cex :
    pageHasStartMatch cexDoc4 cexCfg4 cexCfg4.maxPages = true ∧
    findStartPage cexDoc4 cexCfg4 = .error "Unable to identify the start page" := by
  exact ⟨by decide, by decide⟩

/-- C4 (amended): `find_start_page` examines exactly the pages `1` to
`max_pages - 1` and raises its start-not-found fatal error exactly when no
page in that range has a key index whose header slice matches the target
number. -/
theorem claim_C4 (doc : Document) (cfg : ScannerConfig) :
    findStartPage doc cfg = .error "Unable to identify the start page" ↔
      ∀ p, 1 ≤ p → p < cfg.maxPages → pageHasStartMatch doc cfg p = false := by
  unfold findStartPage
  rw [findStartPageLoop_error_iff]
  constructor
  · intro h p h1 h2
    exact h p (List.mem_range'.mpr ⟨p - 1, by omega, by omega⟩)
  · intro h p hp
    obtain ⟨i, hi, rfl⟩ := List.mem_range'.mp hp
    exact h _ (by omega) (by omega)

/-- C4 (witness): the amended equivalence instantiated on the concrete
document: from the start-not-found error, page 2 (inside the scanned range)
has no match. -/
theorem claim_C4_witness : pageHasStartMatch cexDoc4 cexCfg4 2 = false :=
  (claim_C4 cexDoc4 cexCfg4).mp (by decide) 2 (by decide) (by decide)

/-! ### Claim C5 -/

/-- C5: when a page of the end scan has no key indices at all, the loop
removes that page from `valid_pages`, sets `end_page` to the previous page,
sets `end_page_key_index` to `int(11/0.18) = 61 = round(11/0.18)`, and
terminates at once, whatever pages would have remained. -/
theorem claim_C5 (doc : Document) (cfg : ScannerConfig) (startPage p : Nat)
    (rest vp : List Nat)
    (hks : findKeyIndicesInDf cfg.searchKey (doc.pageNoGuess p) = [])
    (hvp : p ∉ vp) :
    findEndPageLoop doc cfg startPage (p :: rest) vp =
      .ok ⟨p - 1, fallbackEndKeyIndex, vp⟩ ∧
    fallbackEndKeyIndex = 61 ∧
    fallbackEndKeyIndex = round ((11 : ℚ) / (18 / 100)) := by
  refine ⟨?_, fallbackEndKeyIndex_eq, fallbackEndKeyIndex_eq_round⟩
  simp only [findEndPageLoop, hks]
  rw [if_neg hvp, if_pos (by decide)]
  rw [List.erase_append_right _ hvp, List.erase_cons_head, List.append_nil]

/-- C5 (witness): the no-key-indices branch on a concrete empty page 3 with
`valid_pages = [1, 2]`. -/
theorem claim_C5_witness :
    findEndPageLoop witDoc5 witCfg5 1 [3] [1, 2] =
      .ok ⟨2, fallbackEndKeyIndex, [1, 2]⟩ ∧
    fallbackEndKeyIndex = 61 ∧
    fallbackEndKeyIndex = round ((11 : ℚ) / (18 / 100)) :=
  claim_C5 witDoc5 witCfg5 1 3 [] [1, 2] (by decide) (by decide)

/-! ### Claim C10 -/

/-- C10: the region rectangle computation is a pure function of the vertical
slider returning exactly `top = slider * 792`, `left = 0`, `bottom = 792`,
`right = 612`, and calling it again with the same slider returns the same
four values. -/
theorem claim_C10 (s : ℚ) :
    calculateAreaFloatList s = ⟨s * 792, 0, 792, 612⟩ ∧
    calculateAreaFloatList s = calculateAreaFloatList s := by
  refine ⟨?_, rfl⟩
  simp only [calculateAreaFloatList, Area.mk.injEq]
  norm_num
  ring

/-! ### Claim C9 -/

/-- C9: when a key index `k` lies within the first `section_header_rows` rows
of a page with at least `section_header_rows + 1` rows, the header slice's
start bound `k - section_header_rows` is negative, Python interprets it
relative to the end of the grid and the slice comes out empty, so the
number-match test fails regardless of the target; concretely, a document whose
target section sits at the top of page 1 with the target number right above
the key marker is skipped and the start scan fails. -/
theorem claim_C9 :
    (∀ (cfg : ScannerConfig) (g : Grid) (k : Nat),
        k < cfg.sectionHeaderRows → cfg.sectionHeaderRows + 1 ≤ g.col0.length →
        ((k : Int) - cfg.sectionHeaderRows < 0 ∧
          sliceHeaderAroundKeyIndex cfg.sectionHeaderRows g k = [] ∧
          isSearchNumberInSlice cfg.searchNumber
            (sliceHeaderAroundKeyIndex cfg.sectionHeaderRows g k) = false)) ∧
    (some "777" ∈ (cexDoc9.pageNoGuess 1).col0 ∧
      cellMatches cexCfg9.searchNumber (some "777") = true ∧
      findKeyIndicesInDf cexCfg9.searchKey (cexDoc9.pageNoGuess 1) = [1] ∧
      1 < cexCfg9.sectionHeaderRows ∧
      findStartPage cexDoc9 cexCfg9 = .error "Unable to identify the start page") := by
  constructor
  · intro cfg g k hk hlen
    have hempty : sliceHeaderAroundKeyIndex cfg.sectionHeaderRows g k = [] := by
      unfold sliceHeaderAroundKeyIndex pySlice pyBound
      rw [if_pos (by omega : (k : Int) - cfg.sectionHeaderRows < 0),
        if_neg (by omega : ¬((k : Int) + 1 < 0))]
      have h0 : min ((k : Int) + 1).toNat g.col0.length -
          ((g.col0.length : Int) + ((k : Int) - cfg.sectionHeaderRows)).toNat = 0 := by
        omega
      rw [h0, List.take_zero]
    exact ⟨by omega, hempty, by rw [hempty]; rfl⟩
  · refine ⟨by decide, by decide, by decide, by decide, by decide⟩

/-- C9 (witness): the general slice statement instantiated at the concrete
page of `cexDoc9` and key index 1. -/
theorem claim_C9_witness :
    (1 : Int) - cexCfg9.sectionHeaderRows < 0 ∧
      sliceHeaderAroundKeyIndex cexCfg9.sectionHeaderRows (cexDoc9.pageNoGuess 1) 1 = [] ∧
      isSearchNumberInSlice cexCfg9.searchNumber
        (sliceHeaderAroundKeyIndex cexCfg9.sectionHeaderRows (cexDoc9.pageNoGuess 1) 1) =
        false :=
  claim_C9.1 cexCfg9 (cexDoc9.pageNoGuess 1) 1 (by decide) (by decide)

/-! ### Claim C3 -/

/-- C3 (counterexample): on a start page whose only (hence first) key marker
sits at row 4 = `start_page_key_index`, the target section is first on the
page, yet extraction takes the complex path (observably different from the
simple result), because the source tests the literal `start_page_key_index ==
3` rather than the section's position. -/
theorem claim_C3_cex :
    targetSectionIsFirstOnPage cexDoc3 "KEY" cexSc3 = true ∧
    extractPage cexDoc3 cexSc3 1 = .ok cexGrid3Region ∧
    simpleExtract cexDoc3 1 = .ok cexGrid3Simple ∧
    cexGrid3Region ≠ cexGrid3Simple := by
  refine ⟨by decide, by decide, by decide, by decide⟩

/-- C3 (amended): the simple strategy is used for every middle page, and for
the start page exactly when `start_page_key_index` equals the hard-coded row
offset 3 (the code's proxy for "the target section is already the first
section on the page"); the simple strategy returns the layout-guessed grid iff
its columns include Date, Time and Number, and signals failure otherwise. -/
theorem claim_C3 (doc : Document) (sc : ScanResult) (page : Nat) :
    (page ≠ sc.startPage → page ≠ sc.endPage →
      extractPage doc sc page = simpleExtract doc page) ∧
    (sc.startPageKeyIndex = 3 →
      extractPage doc sc sc.startPage = simpleExtract doc sc.startPage) ∧
    (sc.startPageKeyIndex ≠ 3 →
      extractPage doc sc sc.startPage = complexExtract doc sc sc.startPage) ∧
    (hasAllCols (doc.pageGuess page) = true →
      simpleExtract doc page = .ok (doc.pageGuess page)) ∧
    (hasAllCols (doc.pageGuess page) = false →
      simpleExtract doc page = .error (.valueError page)) := by
  refine ⟨?_, ?_, ?_, ?_, ?_⟩
  · intro h1 h2
    unfold extractPage
    rw [if_neg h1, if_neg h2]
  · intro h
    unfold extractPage
    rw [if_pos rfl, if_pos h]
  · intro h
    unfold extractPage
    rw [if_pos rfl, if_neg h]
  · intro h
    unfold simpleExtract
    rw [if_pos h]
  · intro h
    unfold simpleExtract
    rw [if_neg (by rw [h]; exact Bool.false_ne_true)]

/-- C3 (witness): on a concrete scan state with `start_page_key_index = 3`,
the start page goes through the simple strategy and succeeds with the
layout-guessed grid. -/
theorem claim_C3_witness :
    extractPage cexDoc3 witSc3 1 = simpleExtract cexDoc3 1 ∧
    simpleExtract cexDoc3 1 = .ok (cexDoc3.pageGuess 1) :=
  ⟨(claim_C3 cexDoc3 witSc3 1).2.1 (by decide),
   (claim_C3 cexDoc3 witSc3 1).2.2.2.1 (by decide)⟩

/-! ### Claim C8 -/

/-- C8: whenever `extract` succeeds, its result is the concatenation of the
per-page sub-tables in valid-page order filtered by the 6-non-empty-fields
threshold: every retained row has at least 6 non-empty fields and exactly the
rows with fewer are dropped. -/
theorem claim_C8 (doc : Document) (sc : ScanResult) (g : Grid)
    (h : extract doc sc = .ok g) :
    ∃ dfs, sc.validPages.mapM (extractPage doc sc) = .ok dfs ∧
      g = dropnaThresh 6 (concatGrids dfs) ∧
      g.rows = (concatGrids dfs).rows.filter (fun r => 6 ≤ countNonNA r) ∧
      (∀ r ∈ g.rows, 6 ≤ countNonNA r) ∧
      (∀ r ∈ (concatGrids dfs).rows, countNonNA r < 6 → r ∉ g.rows) := by
  unfold extract at h
  cases hm : sc.validPages.mapM (extractPage doc sc) with
  | error e => rw [hm] at h; cases h
  | ok dfs =>
    rw [hm] at h
    dsimp only at h
    by_cases hd : dfs.isEmpty
    · rw [if_pos hd] at h; cases h
    · rw [if_neg hd] at h
      injection h with h
      subst h
      refine ⟨dfs, rfl, rfl, rfl, ?_, ?_⟩
      · intro r hr
        have := (List.mem_filter.mp hr).2
        simpa using this
      · intro r _ hcount hmem
        have := (List.mem_filter.mp hmem).2
        simp only [decide_eq_true_eq] at this
        omega

/-- C8 (witness): aggregation on a concrete one-page document drops the short
row and keeps the complete one. -/
theorem claim_C8_witness :
    ∃ dfs, witSc8.validPages.mapM (extractPage witDoc8 witSc8) = .ok dfs ∧
      witResult8 = dropnaThresh 6 (concatGrids dfs) ∧
      witResult8.rows = (concatGrids dfs).rows.filter (fun r => 6 ≤ countNonNA r) ∧
      (∀ r ∈ witResult8.rows, 6 ≤ countNonNA r) ∧
      (∀ r ∈ (concatGrids dfs).rows, countNonNA r < 6 → r ∉ witResult8.rows) :=
  claim_C8 witDoc8 witSc8 witResult8 (by decide)

/-! ### Claim C2 -/

/-- C2 (counterexample): an iteration whose latest grid contains a row with
`'Date'` but no key-marker literal: the source counts the `'Date'` rows (count
1, not below the candidate count) and increases the slider, while the
spec-worded key-marker re-count (count 0, below the candidate count) would
decrease it; on `cexDoc2` the two choices read different regions and produce
different results. -/
theorem claim_C2_cex :
    (complexLoopAux cexDoc2 cexSc2 1 1 [3] 1 (1/2) cexDf2 []).1 = .ok cexGrid2Good ∧
    (complexLoopAuxSpecWords cexDoc2 cexSc2 1 1 [3] 1 (1/2) cexDf2 []).1 =
      .error (.maxIterations 1 cexSc2.diag 1 [3] []) := by
  constructor
  · have h1 : findIndicesContaining "Date" cexDf2 = [0] := by decide
    have htop : ((1:ℚ)/2 + 1/100) * 11 * 72 = (51 : ℚ) / 100 * 11 * 72 := by norm_num
    simp only [complexLoopAux, h1, List.length_cons, List.length_nil, lt_irrefl, if_false,
      calculateAreaFloatList, cexDoc2, htop]
    norm_num
    decide
  · have h1 : findIndicesContaining "Date Time Number" cexDf2 = [] := by decide
    simp only [complexLoopAuxSpecWords, h1, List.length_cons, List.length_nil,
      Nat.zero_lt_succ, if_true, calculateAreaFloatList, cexDoc2]
    norm_num
    decide

/-- C2 (amended): every correction-loop iteration re-counts the row indices
whose column 0 contains the literal `'Date'` in the most recently returned
grid; if that count is strictly below the candidate count the slider decreases
by exactly 0.01, otherwise it increases by exactly 0.01, and the continuation
recomputes the region rectangle from the new slider before the next read. -/
theorem claim_C2 (doc : Document) (sc : ScanResult) (page totalRows : Nat)
    (possibleIndices : List Nat) (fuel : Nat) (s : ℚ) (df : Grid) (last : List Nat) :
    ((findIndicesContaining "Date" df).length < possibleIndices.length →
      complexLoopAux doc sc page totalRows possibleIndices (fuel + 1) s df last =
        complexLoopBody doc sc page totalRows possibleIndices fuel (s - 1/100)
          (findIndicesContaining "Date" df)) ∧
    (possibleIndices.length ≤ (findIndicesContaining "Date" df).length →
      complexLoopAux doc sc page totalRows possibleIndices (fuel + 1) s df last =
        complexLoopBody doc sc page totalRows possibleIndices fuel (s + 1/100)
          (findIndicesContaining "Date" df)) := by
  constructor
  · intro h
    simp only [complexLoopAux, complexLoopBody]
    rw [if_pos h]
  · intro h
    simp only [complexLoopAux, complexLoopBody]
    rw [if_neg (Nat.not_lt.mpr h)]

/-- C2 (witness): the amended iteration equation instantiated on the concrete
inputs of the counterexample, where the `'Date'` count is not below the
candidate count and the slider moves from `0.5` to `0.5 + 0.01`. -/
theorem claim_C2_witness :
    complexLoopAux cexDoc2 cexSc2 1 1 [3] (0 + 1) (1/2) cexDf2 [] =
      complexLoopBody cexDoc2 cexSc2 1 1 [3] 0 (1/2 + 1/100)
        (findIndicesContaining "Date" cexDf2) :=
  (claim_C2 cexDoc2 cexSc2 1 1 [3] 0 (1/2) cexDf2 []).2 (by decide)

/-! ### Claim C6 -/

/-- Shape of the correction loop's results: the iteration count never exceeds
the fuel, and any error is either the `Number`-column `KeyError` or the
iteration-cap error carrying the loop's diagnostic data. -/
lemma complexLoopAux_shape (doc : Document) (sc : ScanResult) (page totalRows : Nat)
    (possibleIndices : List Nat) :
    ∀ (fuel : Nat) (s : ℚ) (df : Grid) (last : List Nat),
      (complexLoopAux doc sc page totalRows possibleIndices fuel s df last).2 ≤ fuel ∧
      ∀ e, (complexLoopAux doc sc page totalRows possibleIndices fuel s df last).1 =
          .error e →
        e = .numberKeyError page ∨
          ∃ idx, e = .maxIterations page sc.diag totalRows possibleIndices idx
  | 0, s, df, last => by
    refine ⟨Nat.le_refl 0, ?_⟩
    intro e he
    injection he with he
    exact Or.inr ⟨last, he.symm⟩
  | fuel + 1, s, df, last => by
    simp only [complexLoopAux]
    split
    next =>
      split
      next =>
        split
        next =>
          exact ⟨by omega, fun e he => by injection he with he; exact Or.inl he.symm⟩
        next =>
          split
          next =>
            split
            next => exact ⟨by omega, fun e he => by cases he⟩
            next =>
              refine ⟨?_, ?_⟩
              · exact Nat.add_le_add_right
                  ((complexLoopAux_shape doc sc page totalRows possibleIndices fuel _ _ _).1) 1
              · intro e he
                exact (complexLoopAux_shape doc sc page totalRows possibleIndices fuel
                  _ _ _).2 e he
          next => exact ⟨by omega, fun e he => by cases he⟩
      next =>
        refine ⟨?_, ?_⟩
        · exact Nat.add_le_add_right
            ((complexLoopAux_shape doc sc page totalRows possibleIndices fuel _ _ _).1) 1
        · intro e he
          exact (complexLoopAux_shape doc sc page totalRows possibleIndices fuel _ _ _).2 e he
    next =>
      split
      next =>
        split
        next =>
          exact ⟨by omega, fun e he => by injection he with he; exact Or.inl he.symm⟩
        next =>
          split
          next =>
            split
            next => exact ⟨by omega, fun e he => by cases he⟩
            next =>
              refine ⟨?_, ?_⟩
              · exact Nat.add_le_add_right
                  ((complexLoopAux_shape doc sc page totalRows possibleIndices fuel _ _ _).1) 1
              · intro e he
                exact (complexLoopAux_shape doc sc page totalRows possibleIndices fuel
                  _ _ _).2 e he
          next => exact ⟨by omega, fun e he => by cases he⟩
      next =>
        refine ⟨?_, ?_⟩
        · exact Nat.add_le_add_right
            ((complexLoopAux_shape doc sc page totalRows possibleIndices fuel _ _ _).1) 1
        · intro e he
          exact (complexLoopAux_shape doc sc page totalRows possibleIndices fuel _ _ _).2 e he

/-- C6: the complex extraction always terminates with at most 500 correction
iterations; its only outcomes are a grid, the `Number`-column `KeyError`, or
the iteration-cap fatal error carrying the full diagnostic scan state
(start/end pages, both key indices, valid pages, total row count, candidate
and latest index lists); and on a start page taking the complex path the
result of `extract`'s per-page branch is the complex result itself, with no
internal catch. -/
theorem claim_C6 (doc : Document) (sc : ScanResult) (page : Nat) :
    (complexExtractCounted doc sc page).2 ≤ 500 ∧
    ((∃ g, complexExtract doc sc page = .ok g) ∨
      complexExtract doc sc page = .error (.numberKeyError page) ∨
      ∃ idx, complexExtract doc sc page =
        .error (.maxIterations page sc.diag (complexTotalRows doc page)
          (complexPossibleIndices doc sc page) idx)) ∧
    (sc.startPageKeyIndex ≠ 3 →
      extractPage doc sc sc.startPage = complexExtract doc sc sc.startPage) := by
  refine ⟨?_, ?_, ?_⟩
  · simp only [complexExtractCounted]
    split
    · exact Nat.zero_le 500
    · exact (complexLoopAux_shape doc sc page (complexTotalRows doc page)
        (complexPossibleIndices doc sc page) 500 _ _ _).1
  · simp only [complexExtract, complexExtractCounted]
    split
    · exact Or.inl ⟨_, rfl⟩
    · cases hr : (complexLoopAux doc sc page (complexTotalRows doc page)
          (complexPossibleIndices doc sc page) 500
          ((sc.startPageKeyIndex : ℚ) / (complexTotalRows doc page : ℚ))
          (doc.pageArea page (calculateAreaFloatList
            ((sc.startPageKeyIndex : ℚ) / (complexTotalRows doc page : ℚ)))) []).1 with
      | ok g => exact Or.inl ⟨g, rfl⟩
      | error e =>
        rcases (complexLoopAux_shape doc sc page (complexTotalRows doc page)
            (complexPossibleIndices doc sc page) 500 _ _ _).2 e hr with h | ⟨idx, h⟩
        · exact Or.inr (Or.inl (by rw [h]))
        · exact Or.inr (Or.inr ⟨idx, by rw [h]⟩)
  · intro h
    unfold extractPage
    rw [if_pos rfl, if_neg h]

/-- C6 (witness): the bounds instantiated on the concrete document of the C3
counterexample, whose start key index is 4. -/
theorem claim_C6_witness :
    (complexExtractCounted cexDoc3 cexSc3 1).2 ≤ 500 ∧
    extractPage cexDoc3 cexSc3 1 = complexExtract cexDoc3 cexSc3 1 :=
  ⟨(claim_C6 cexDoc3 cexSc3 1).1, (claim_C6 cexDoc3 cexSc3 1).2.2 (by decide)⟩

/-! ### Claim C7 -/

/-- When every attempt in the budget's window fails, the retry loop exhausts
the budget with the fail trace of requests and backoff sleeps. -/
lemma retryLoop_allFail (api : String → Nat → ApiResponse) (num : String) :
    ∀ (budget start : Nat),
      (∀ i, start ≤ i → i < start + budget → processResponse (api num i) = none) →
      retryLoop api num start budget = (none, failTraceFrom num start budget)
  | 0, start, h => by simp [retryLoop, failTraceFrom]
  | budget + 1, start, h => by
    have h0 : processResponse (api num start) = none := h start (Nat.le_refl start) (by omega)
    simp only [retryLoop, h0, failTraceFrom]
    rw [retryLoop_allFail api num budget (start + 1)
      (fun i h1 h2 => h i (by omega) (by omega))]

/-- When the first `k` attempts fail and attempt `start + k` succeeds inside
the budget, the retry loop returns that carrier after the corresponding
requests and backoff sleeps. -/
lemma retryLoop_success (api : String → Nat → ApiResponse) (num : String) :
    ∀ (k budget start : Nat) (c : String), k < budget →
      (∀ i, start ≤ i → i < start + k → processResponse (api num i) = none) →
      processResponse (api num (start + k)) = some c →
      retryLoop api num start budget =
        (some c, failTraceFrom num start k ++ [.request num (start + k)])
  | 0, budget, start, c, hk, hfail, hsucc => by
    obtain ⟨b, rfl⟩ : ∃ b, budget = b + 1 := ⟨budget - 1, by omega⟩
    rw [Nat.add_zero] at hsucc
    simp [retryLoop, hsucc, failTraceFrom]
  | k + 1, budget, start, c, hk, hfail, hsucc => by
    obtain ⟨b, rfl⟩ : ∃ b, budget = b + 1 := ⟨budget - 1, by omega⟩
    have h0 : processResponse (api num start) = none := hfail start (Nat.le_refl start) (by omega)
    simp only [retryLoop, h0, failTraceFrom]
    rw [retryLoop_success api num k b (start + 1) c (by omega)
      (fun i h1 h2 => hfail i (by omega) (by omega))
      (by rw [show start + 1 + k = start + (k + 1) by omega]; exact hsucc)]
    simp [show start + 1 + k = start + (k + 1) by omega]

/-- A number whose every attempt fails is recorded as the `"Null"` sentinel
with `total_fails` bumped, after the full fail trace. -/
lemma findCarrierForNumber_allFail (api : String → Nat → ApiResponse)
    (st : IntegratorState) (num : String) (hlt : st.totalFails < maxFailsThreshold)
    (hf : ∀ j, j < maxRetryThreshold → processResponse (api num j) = none) :
    findCarrierForNumber api st num =
      .ok (⟨st.totalFails + 1, st.accumulator ++ ["Null"]⟩,
        failTraceFrom num 0 maxRetryThreshold) := by
  unfold findCarrierForNumber
  rw [if_neg (by omega)]
  rw [retryLoop_allFail api num maxRetryThreshold 0 (fun i h1 h2 => hf i (by omega))]

/-- Once the fail threshold is reached, the circuit breaker fires before any
lookup. -/
lemma findCarrierForNumber_blocked (api : String → Nat → ApiResponse)
    (st : IntegratorState) (num : String) (h : maxFailsThreshold ≤ st.totalFails) :
    findCarrierForNumber api st num = .error circuitBreakerMessage := by
  unfold findCarrierForNumber
  rw [if_pos h]

/-- C7: per number the resolver retries failed lookups up to the fixed budget
with backoff sleeps of `baseDelay * backoffFactor ^ attempts` seconds between
attempts; a number that exhausts all retries records the `"Null"` sentinel and
bumps the failure count while the pass moves on; once the count of exhausted
numbers reaches the threshold 3 the circuit breaker raises before issuing any
lookup, so a pass whose first three numbers always fail aborts without a
single request for any later number. -/
theorem claim_C7 (api : String → Nat → ApiResponse) (st : IntegratorState) (num : String) :
    (st.totalFails < maxFailsThreshold →
      (∀ j, j < maxRetryThreshold → processResponse (api num j) = none) →
      findCarrierForNumber api st num =
        .ok (⟨st.totalFails + 1, st.accumulator ++ ["Null"]⟩,
          failTraceFrom num 0 maxRetryThreshold)) ∧
    (st.totalFails < maxFailsThreshold →
      ∀ j c, j < maxRetryThreshold →
        (∀ i, i < j → processResponse (api num i) = none) →
        processResponse (api num j) = some c →
        findCarrierForNumber api st num =
          .ok ({ st with accumulator := st.accumulator ++ [c] },
            failTraceFrom num 0 j ++ [.request num j])) ∧
    (maxFailsThreshold ≤ st.totalFails →
      findCarrierForNumber api st num = .error circuitBreakerMessage) ∧
    (∀ n0 n1 n2 n3 : String, ∀ rest : List String,
      (∀ m ∈ [n0, n1, n2], ∀ j, j < maxRetryThreshold → processResponse (api m j) = none) →
      (findCarriers api ⟨0, []⟩ (n0 :: n1 :: n2 :: n3 :: rest)).1 =
          .error circuitBreakerMessage ∧
        (findCarriers api ⟨0, []⟩ (n0 :: n1 :: n2 :: n3 :: rest)).2 =
          failTraceFrom n0 0 maxRetryThreshold ++ .sleep rateLimitWaitTimeSeconds ::
            (failTraceFrom n1 0 maxRetryThreshold ++ .sleep rateLimitWaitTimeSeconds ::
              (failTraceFrom n2 0 maxRetryThreshold ++
                [.sleep rateLimitWaitTimeSeconds]))) := by
  refine ⟨?_, ?_, ?_, ?_⟩
  · intro hlt hf
    exact findCarrierForNumber_allFail api st num hlt hf
  · intro hlt j c hj hfail hsucc
    unfold findCarrierForNumber
    rw [if_neg (by omega)]
    rw [retryLoop_success api num j maxRetryThreshold 0 c hj
      (fun i h1 h2 => hfail i (by omega))
      (by rw [Nat.zero_add]; exact hsucc)]
    simp [Nat.zero_add]
  · intro h
    exact findCarrierForNumber_blocked api st num h
  · intro n0 n1 n2 n3 rest hf
    have h0 : findCarrierForNumber api ⟨0, []⟩ n0 =
        .ok (⟨1, ["Null"]⟩, failTraceFrom n0 0 maxRetryThreshold) :=
      findCarrierForNumber_allFail api ⟨0, []⟩ n0 (by decide)
        (hf n0 (by simp))
    have h1 : findCarrierForNumber api ⟨1, ["Null"]⟩ n1 =
        .ok (⟨2, ["Null", "Null"]⟩, failTraceFrom n1 0 maxRetryThreshold) :=
      findCarrierForNumber_allFail api ⟨1, ["Null"]⟩ n1 (by decide)
        (hf n1 (by simp))
    have h2 : findCarrierForNumber api ⟨2, ["Null", "Null"]⟩ n2 =
        .ok (⟨3, ["Null", "Null", "Null"]⟩, failTraceFrom n2 0 maxRetryThreshold) :=
      findCarrierForNumber_allFail api ⟨2, ["Null", "Null"]⟩ n2 (by decide)
        (hf n2 (by simp))
    have h3 : findCarrierForNumber api ⟨3, ["Null", "Null", "Null"]⟩ n3 =
        .error circuitBreakerMessage :=
      findCarrierForNumber_blocked api ⟨3, ["Null", "Null", "Null"]⟩ n3 (by decide)
    constructor
    · simp only [findCarriers, h0, h1, h2, h3]
    · simp only [findCarriers, h0, h1, h2, h3]

/-- C7 (witness): on a stub that always answers 404, a fresh resolver records
`"Null"` for the first number after the five requests and their exponential
backoff sleeps. -/
theorem claim_C7_witness :
    findCarrierForNumber witApi7 ⟨0, []⟩ "5" =
      .ok (⟨1, ["Null"]⟩, failTraceFrom "5" 0 maxRetryThreshold) :=
  (claim_C7 witApi7 ⟨0, []⟩ "5").1 (by decide) (fun j hj => rfl)
